/-
Verification of the crac-mcp context-retrieval and prompt-assembly pipeline.

Shallow embedding of the TypeScript sources:
  * `src/core/parser/command-parser.ts`    (parseCommand)
  * `src/core/rag/context-searcher.ts`     (ContextSearcher, combineResults)
  * `src/core/rag/template-searcher.ts`    (TemplateSearcher)
  * `src/core/tools/crac-rules-detector.ts` (CracRulesDetector)
  * `src/core/prompts/prompt-builder.ts`   (PromptBuilder)

JavaScript strings are modelled as Lean `String`/`List Char`; JS `number`
is modelled as `Rat` (the claims under study do not depend on binary
floating-point artifacts); fallible external calls (embedding provider,
Supabase RPC) are modelled as `Except`-returning function parameters, and
the calls actually issued are recorded in an explicit trace.
-/
import Mathlib

namespace CracMcp

/-! ## JS string primitives -/

/-- JS whitespace class (the ASCII part of `\s`, as used by `trim`,
`\s+` and the tool patterns). -/
def jsWs (c : Char) : Bool :=
  c == ' ' || c == '\t' || c == '\n' || c == '\r' || c == '\x0b' || c == '\x0c'

/-- JS `\w` word character, used for `\b` word boundaries: `[A-Za-z0-9_]`. -/
def isWordChar (c : Char) : Bool :=
  (c ≥ 'a' && c ≤ 'z') || (c ≥ 'A' && c ≤ 'Z') || (c ≥ '0' && c ≤ '9') || c == '_'

/-- `String.prototype.trim` on character lists: drop JS whitespace from
both ends. -/
def jsTrimL (l : List Char) : List Char :=
  List.rdropWhile jsWs (List.dropWhile jsWs l)

/-- `String.prototype.trim`. -/
def jsTrimS (s : String) : String :=
  String.mk (jsTrimL s.data)

/-- `replace(/\s+/g, " ")`, tracking whether the previous character was
whitespace: the first character of each maximal whitespace run becomes a
single space, the rest of the run is dropped. -/
def collapseWsAux (prevWs : Bool) : List Char → List Char
  | [] => []
  | c :: cs =>
    if jsWs c then
      if prevWs then collapseWsAux true cs
      else ' ' :: collapseWsAux true cs
    else c :: collapseWsAux false cs

/-- `replace(/\s+/g, " ")`: each maximal run of JS whitespace becomes a
single space. -/
def collapseWs (l : List Char) : List Char :=
  collapseWsAux false l

/-- `Array.prototype.join(sep)`. -/
def joinSep (sep : String) : List String → String
  | [] => ""
  | [a] => a
  | a :: b :: rest => a ++ sep ++ joinSep sep (b :: rest)

/-- Case-insensitive ASCII lowering of a character list
(`String.prototype.toLowerCase` over the ASCII range). -/
def lcList (l : List Char) : List Char :=
  l.map Char.toLower

/-! ## Command parser (`src/core/parser/command-parser.ts`) -/

/-- `ParsedCommand` from `command-parser.ts`. -/
structure ParsedCommand where
  tool : String
  scope : String
  requirements : String
  raw : String
deriving DecidableEq, Repr

/-- The alternative groups of `TOOL_PATTERNS`, in source order; each
regex is `^(alt1|alt2|...)\s+` with the `i` flag. -/
def toolAlternatives : List (List String) :=
  [ ["generate-tasks", "gen-tasks", "generate", "gen"],
    ["dev", "develop", "implement", "create", "add", "build"],
    ["test", "testing"],
    ["refactor", "refactoring"],
    ["fix", "bugfix", "debug"],
    ["update", "modify", "change"] ]

/-- The scope alternatives of `SCOPE_PATTERNS`
(`\b(rac|partners|global|web|mobile|suppliers|notifications|queues)\b`, flag `i`). -/
def scopeKeywords : List String :=
  ["rac", "partners", "global", "web", "mobile", "suppliers", "notifications", "queues"]

def DEFAULT_TOOL : String := "dev"

def DEFAULT_SCOPE : String := "global"

/-- Does lower-cased input `low` match keyword `k` at its start,
followed by at least one whitespace character (`^k\s+`)? -/
def toolKwMatches (low : List Char) (k : String) : Bool :=
  k.data.isPrefixOf low &&
    match low.drop k.data.length with
    | c :: _ => jsWs c
    | [] => false

/-- `normalized.match(pattern)` over the ordered `TOOL_PATTERNS` list:
first pattern, and inside a pattern first alternative, that matches at
the start of the input followed by whitespace. -/
def findToolMatch (low : List Char) : Option String :=
  toolAlternatives.findSome? (fun alts => alts.find? (toolKwMatches low))

/-- Length of `match[0]` for a tool match: the keyword plus the greedy
`\s+` run after it. -/
def toolMatchLen (low : List Char) (k : String) : Nat :=
  k.data.length + ((low.drop k.data.length).takeWhile jsWs).length

/-- `\b` holds before the current position given the previous character. -/
def boundaryBefore (prev : Option Char) : Bool :=
  match prev with
  | none => true
  | some c => !isWordChar c

/-- `\b` holds after a keyword given the remaining characters. -/
def boundaryAfter (rest : List Char) : Bool :=
  match rest with
  | [] => true
  | c :: _ => !isWordChar c

/-- Does scope keyword `k` match at the start of `low` (already
lower-cased) with a word boundary on each side, `prev` being the
character before the current position in the subject string? -/
def scopeKwMatchesHere (low : List Char) (prev : Option Char) (k : String) : Bool :=
  boundaryBefore prev && k.data.isPrefixOf low && boundaryAfter (low.drop k.data.length)

/-- Scan of `normalized.match(SCOPE_PATTERNS[0])`: left-to-right over
positions, and at each position over the alternatives in order. -/
def findScopeAux : List Char → Option Char → Option String
  | [], _ => none
  | c :: cs, prev =>
    match scopeKeywords.find? (scopeKwMatchesHere (c :: cs) prev) with
    | some k => some k
    | none => findScopeAux cs (some c)

def findScopeMatch (low : List Char) : Option String :=
  findScopeAux low none

/-- Case-insensitive match of keyword `k` (lower case) at the start of
`l` (original case). -/
def ciPrefix (k : List Char) (l : List Char) : Bool :=
  lcList (l.take k.length) == k

/-- One position of `requirements.replace(new RegExp("\\b" ++ scope ++ "\\b", "gi"), "")`:
word-boundary, case-insensitive match of `k` here? -/
def ciBoundaryMatchAt (k : List Char) (l : List Char) (prev : Option Char) : Bool :=
  !k.isEmpty && boundaryBefore prev && ciPrefix k l && boundaryAfter (l.drop k.length)

/-- Worker for the global regex replacement: `skip > 0` means the
current character belongs to an already-matched occurrence and is
consumed without output (the scan resumes after the match, and word
boundaries are evaluated against the original subject string, as the JS
regex engine does). -/
def removeAllCIAux (k : List Char) : List Char → Option Char → Nat → List Char
  | [], _, _ => []
  | c :: cs, _, skip + 1 => removeAllCIAux k cs (some c) skip
  | c :: cs, prev, 0 =>
    if ciBoundaryMatchAt k (c :: cs) prev then
      removeAllCIAux k cs (some c) (k.length - 1)
    else
      c :: removeAllCIAux k cs (some c) 0

/-- `requirements.replace(new RegExp("\\b" + scope + "\\b", "gi"), "")`:
remove every word-boundary, case-insensitive occurrence of `k`. -/
def removeAllCI (k : List Char) (l : List Char) (prev : Option Char) : List Char :=
  removeAllCIAux k l prev 0

/-- The body of `parseCommand` after `command.trim()`; `normalized` is
the trimmed input. -/
def parseCore (normalized : String) : ParsedCommand :=
  if normalized = "" then
    { tool := DEFAULT_TOOL, scope := DEFAULT_SCOPE, requirements := "", raw := normalized }
  else
    let low := lcList normalized.data
    let toolFound := findToolMatch low
    let tool := match toolFound with
      | some k => k
      | none => DEFAULT_TOOL
    let afterTool : List Char := match toolFound with
      | some k => jsTrimL (normalized.data.drop (toolMatchLen low k))
      | none => normalized.data
    let scopeFound := findScopeMatch low
    let scope := match scopeFound with
      | some k => k
      | none => DEFAULT_SCOPE
    let afterScope : List Char := match scopeFound with
      | some k => jsTrimL (removeAllCI k.data afterTool none)
      | none => afterTool
    let cleaned := jsTrimL (collapseWs afterScope)
    let requirements := if cleaned = [] then normalized else String.mk cleaned
    { tool := tool, scope := scope, requirements := requirements, raw := normalized }

/-- `parseCommand` from `command-parser.ts`. -/
def parseCommand (command : String) : ParsedCommand :=
  parseCore (jsTrimS command)

/-! ## Rule-relevance detector (`src/core/tools/crac-rules-detector.ts`) -/

/-- `CracRuleType` enum; `structure_` renders the source's `STRUCTURE`
(`structure` is a Lean keyword). -/
inductive CracRuleType where
  | testing
  | structure_
  | endpoints
  | code_style
  | all
deriving DecidableEq, Repr

/-- Is `needle` a contiguous sublist of the subject list? -/
def listInfix (needle : List Char) : List Char → Bool
  | [] => needle.isEmpty
  | c :: cs => needle.isPrefixOf (c :: cs) || listInfix needle cs

/-- `normalizedContext.includes(keyword)`: substring containment. -/
def strIncludes (s : String) (sub : String) : Bool :=
  listInfix sub.data s.data

/-- The `patterns` table of `CracRulesDetector`, keyword lists verbatim
(note: the CODE_STYLE list really contains "code style" twice). -/
def detectorPatterns : List (CracRuleType × List String) :=
  [ (CracRuleType.testing,
     ["test", "testing", "tests", "spec", "specs", "jest", "rtl",
      "react testing library", "unit test", "integration test", "e2e test",
      "test file", "test suite", "describe", "it(", "test(", "expect",
      "mock", "snapshot"]),
    (CracRuleType.structure_,
     ["structure", "folder", "directory", "organize", "architecture",
      "feature", "module", "create feature", "new feature", "folder structure",
      "file structure", "directory structure", "organize code",
      "screaming architecture"]),
    (CracRuleType.endpoints,
     ["endpoint", "endpoints", "api", "service", "redux action",
      "create service", "api service", "service file", "endpoints.ts",
      "service.ts", "actions.ts", "screaming architecture", "module structure",
      "entities", "state/actions"]),
    (CracRuleType.code_style,
     ["code style", "convention", "conventions", "naming", "component",
      "import", "export", "pascalcase", "camelcase", "code style",
      "coding standards", "style guide"]) ]

/-- Stable insertion into a list sorted by descending score: the new
element goes in front of the first strictly smaller score, after equal
scores (matches the stable `Array.prototype.sort((a, b) => b[1] - a[1])`). -/
def insertByScoreDesc (x : CracRuleType × Nat) :
    List (CracRuleType × Nat) → List (CracRuleType × Nat)
  | [] => [x]
  | y :: ys => if x.2 < y.2 then y :: insertByScoreDesc x ys else x :: y :: ys

/-- Stable sort by descending score. -/
def sortByScoreDesc : List (CracRuleType × Nat) → List (CracRuleType × Nat)
  | [] => []
  | x :: xs => insertByScoreDesc x (sortByScoreDesc xs)

/-- `sorted.filter((_, index) => index < 2 || score >= 2)` with explicit
index tracking. -/
def selectTop (i : Nat) : List (CracRuleType × Nat) → List (CracRuleType × Nat)
  | [] => []
  | x :: xs =>
    if i < 2 || x.2 ≥ 2 then x :: selectTop (i + 1) xs
    else selectTop (i + 1) xs

/-- String lower-casing (`toLowerCase`, ASCII range). -/
def toLowerStr (s : String) : String :=
  String.mk (lcList s.data)

/-- The scoring loop of `detectRules`: for each pattern, the number of
its keyword-list entries contained in the lower-cased context `n`;
types with score 0 are dropped (`matches.set` only on `score > 0`). -/
def detectorScored (n : String) : List (CracRuleType × Nat) :=
  detectorPatterns.filterMap (fun p =>
    if (p.2.filter (fun k => strIncludes n k)).length > 0 then
      some (p.1, (p.2.filter (fun k => strIncludes n k)).length)
    else none)

/-- `CracRulesDetector.detectRules` from `crac-rules-detector.ts`.
The optional argument is `Option String` (`undefined` is `none`). -/
def detectRules : Option String → List CracRuleType
  | none => [CracRuleType.all]
  | some ctx =>
    if (jsTrimS ctx).data.length = 0 then [CracRuleType.all]
    else
      if (detectorScored (toLowerStr ctx)).isEmpty then [CracRuleType.all]
      else
        if ((selectTop 0 (sortByScoreDesc (detectorScored (toLowerStr ctx)))).map
            Prod.fst).isEmpty then [CracRuleType.all]
        else (selectTop 0 (sortByScoreDesc (detectorScored (toLowerStr ctx)))).map Prod.fst

/-! ## Context searcher (`src/core/rag/context-searcher.ts`) -/

/-- `SearchResult` from `context-searcher.ts`: one row returned by the
`match_dev_contexts` RPC.  In that interface `app` is the application
tag and `scope` is the content-category tag. -/
structure SearchResult where
  id : Int
  app : String
  scope : String
  title : String
  path : Option String
  content : String
  distance : Rat
deriving DecidableEq, Repr

/-- `RAGContext` from `context-searcher.ts`. -/
structure RAGContext where
  technology : String
  folderStructure : String
  conventions : String
  examples : String
  architecture : String
deriving DecidableEq, Repr

/-- Left-pad a numeral string with zeros to 4 digits. -/
def pad4 (s : String) : String :=
  String.mk (List.replicate (4 - s.data.length) '0') ++ s

/-- `Number.prototype.toFixed(4)` on the exact rational model: round
`x * 10^4` to the nearest integer, half toward larger, and print with
exactly four decimal digits. -/
def toFixed4Nonneg (x : Rat) : String :=
  let n : Nat := (⌊x * 10000 + 1 / 2⌋).toNat
  toString (n / 10000) ++ "." ++ pad4 (toString (n % 10000))

def toFixed4 (x : Rat) : String :=
  if x < 0 then "-" ++ toFixed4Nonneg (-x) else toFixed4Nonneg x

/-- The per-result block of `ContextSearcher.combineResults`:
`--- title (app/scope, distance: d) ---` + newline + content. -/
def resultBlock (r : SearchResult) : String :=
  "--- " ++ r.title ++ " (" ++ r.app ++ "/" ++ r.scope ++ ", distance: " ++
    toFixed4 r.distance ++ ") ---\n" ++ r.content

/-- `ContextSearcher.combineResults`. -/
def combineResults (results : List SearchResult) : String :=
  if results.length = 0 then ""
  else joinSep "\n\n" (results.map resultBlock)

/-- One similarity-search invocation as issued to
`searchSimilarContexts` (embedding vector, app filter, category filter,
`match_count`). -/
structure SearchCall where
  embedding : List Rat
  apps : List String
  scopes : Option (List String)
  topK : Nat
deriving DecidableEq, Repr

/-- The external collaborators of the engine: the `dev_apps` scope
registry rows (`key`, `is_active`), the embedding provider and the
vector-search RPC, both fallible. -/
structure Backend where
  devApps : List (String × Bool)
  embed : String → Except String (List Rat)
  search : List Rat → List String → Option (List String) → Nat → Except String (List SearchResult)

/-- `validateScope`: `dev_apps` row lookup with `.eq("key", scope)
.eq("is_active", true).single()`; `.single()` succeeds only on exactly
one row. -/
def validateScope (B : Backend) (scope : String) : Bool :=
  (B.devApps.filter (fun r => r.1 == scope && r.2)).length == 1

/-- `getActiveScopes`: keys of the active `dev_apps` rows. -/
def getActiveScopes (B : Backend) : List String :=
  (B.devApps.filter (fun r => r.2)).map (fun r => r.1)

/-- The typed failures of `searchContext` (the source throws `Error`s
whose messages `renderCtxError` reproduces). -/
inductive CtxError where
  | scopeNotFound (scope : String) (available : List String)
  | embedding (msg : String)
  | backend (msg : String)
deriving DecidableEq, Repr

/-- The message of the `Error` thrown by the source for each
`CtxError`. -/
def renderCtxError : CtxError → String
  | CtxError.scopeNotFound scope available =>
      "Invalid scope: \"" ++ scope ++ "\". Available scopes: " ++ joinSep ", " available
  | CtxError.embedding msg => msg
  | CtxError.backend msg =>
      "Failed to search contexts: " ++ msg ++
        ". Make sure the RPC function \x27match_dev_contexts\x27 exists in Supabase."

/-- The four context aspects. -/
inductive Aspect where
  | technology
  | folderStructure
  | conventions
  | examples
deriving DecidableEq, Repr

/-- `AspectQuery`: one facet of retrieval as built by `searchContext`
(`query`, `apps`, `scopes`, `topK`, `aspect`). -/
structure AspectQuery where
  query : String
  apps : List String
  scopes : List String
  topK : Nat
  aspect : Aspect
deriving DecidableEq, Repr

/-- The `queries` array literal of `ContextSearcher.searchContext`. -/
def buildQueries (requirements scope tool : String) : List AspectQuery :=
  [ { query := scope ++ " technology stack framework libraries dependencies",
      apps := [scope, "global"], scopes := ["architecture", "introduction"],
      topK := 2, aspect := Aspect.technology },
    { query := scope ++ " folder structure directory organization file layout",
      apps := [scope, "global"], scopes := ["architecture", "routing"],
      topK := 2, aspect := Aspect.folderStructure },
    { query := scope ++ " code conventions style guide patterns best practices",
      apps := [scope, "global"], scopes := ["style-guide", "architecture"],
      topK := 2, aspect := Aspect.conventions },
    { query := tool ++ " " ++ requirements ++ " example implementation similar",
      apps := [scope, "global"], scopes := ["tasks-examples", "core"],
      topK := 2, aspect := Aspect.examples } ]

/-- The outcome of one aspect's `embed` + `searchSimilarContexts` pair,
together with the external calls it issued. -/
structure AspectOutcome where
  aspect : Aspect
  embedCall : String
  searchCall : Option SearchCall
  result : Except CtxError (List SearchResult)
deriving Repr

/-- One aspect's `async` arm inside `searchContext`: embed the query
text, then issue one similarity search; either step may fail. -/
def runAspect (B : Backend) (q : AspectQuery) : AspectOutcome :=
  match B.embed q.query with
  | Except.error e =>
      { aspect := q.aspect, embedCall := q.query, searchCall := none,
        result := Except.error (CtxError.embedding e) }
  | Except.ok v =>
      match B.search v q.apps (some q.scopes) q.topK with
      | Except.error e =>
          { aspect := q.aspect, embedCall := q.query,
            searchCall := some { embedding := v, apps := q.apps, scopes := some q.scopes, topK := q.topK },
            result := Except.error (CtxError.backend e) }
      | Except.ok rs =>
          { aspect := q.aspect, embedCall := q.query,
            searchCall := some { embedding := v, apps := q.apps, scopes := some q.scopes, topK := q.topK },
            result := Except.ok rs }

/-- First failure among the four outcomes (`Promise.all` rejection). -/
def firstError (outcomes : List AspectOutcome) : Option CtxError :=
  outcomes.findSome? (fun o =>
    match o.result with
    | Except.error e => some e
    | Except.ok _ => none)

/-- `searchResults.find((r) => r.aspect === a)?.results || []`. -/
def resultsFor (outcomes : List AspectOutcome) (a : Aspect) : List SearchResult :=
  match outcomes.find? (fun o => o.aspect == a) with
  | some o =>
    match o.result with
    | Except.ok rs => rs
    | Except.error _ => []
  | none => []

/-- Fan-in of the four outcomes: fail on the first error, otherwise
build the `RAGContext` (including the derived `architecture` field). -/
def aggregateOutcomes (outcomes : List AspectOutcome) : Except CtxError RAGContext :=
  match firstError outcomes with
  | some e => Except.error e
  | none =>
    let technology := combineResults (resultsFor outcomes Aspect.technology)
    let folderStructure := combineResults (resultsFor outcomes Aspect.folderStructure)
    Except.ok
    { technology := technology,
      folderStructure := folderStructure,
      conventions := combineResults (resultsFor outcomes Aspect.conventions),
      examples := combineResults (resultsFor outcomes Aspect.examples),
      architecture := technology ++ "\n\n" ++ folderStructure }

/-- The external calls issued during one `searchContext` invocation. -/
structure CallTrace where
  embeds : List String
  searches : List SearchCall
deriving DecidableEq, Repr

/-- `ContextSearcher.searchContext`, instrumented with the trace of
embedding and similarity-search calls it issues. -/
def searchContext (B : Backend) (requirements scope tool : String) :
    Except CtxError RAGContext × CallTrace :=
  if validateScope B scope then
    (aggregateOutcomes ((buildQueries requirements scope tool).map (runAspect B)),
     { embeds := ((buildQueries requirements scope tool).map (runAspect B)).map
         (fun o => o.embedCall),
       searches := ((buildQueries requirements scope tool).map (runAspect B)).filterMap
         (fun o => o.searchCall) })
  else
    (Except.error (CtxError.scopeNotFound scope (getActiveScopes B)),
     { embeds := [], searches := [] })

/-! ## Template searcher (`src/core/rag/template-searcher.ts`) -/

/-- `TemplateContext` from `template-searcher.ts`. -/
structure TemplateContext where
  prdTemplate : String
  tasksTemplate : String
  subtasksTemplate : String
deriving DecidableEq, Repr

/-- The three template slots. -/
inductive TemplateSlot where
  | prdTemplate
  | tasksTemplate
  | subtasksTemplate
deriving DecidableEq, Repr

/-- The `queries` array literal of `TemplateSearcher.searchTemplates`
(query text, category filter, `topK`, slot). -/
def templateQueries : List (String × List String × Nat × TemplateSlot) :=
  [ ("create-prd product requirements document template guide",
     ["prd-template"], 1, TemplateSlot.prdTemplate),
    ("generate-tasks task list template guide",
     ["tasks-template"], 1, TemplateSlot.tasksTemplate),
    ("implement-task subtask implementation template guide",
     ["subtasks-template"], 1, TemplateSlot.subtasksTemplate) ]

/-- The per-result block used by `searchTemplates` (no distance). -/
def templateBlock (r : SearchResult) : String :=
  "--- " ++ r.title ++ " (" ++ r.app ++ "/" ++ r.scope ++ ") ---\n" ++ r.content

/-- `templateContent`: combined block text, `""` for zero results. -/
def templateCombine (results : List SearchResult) : String :=
  if results.length > 0 then joinSep "\n\n" (results.map templateBlock) else ""

/-- JS `a || b` on strings: `b` exactly when `a` is empty. -/
def jsOrElse (a b : String) : String :=
  if a = "" then b else a

def prdFallback : String :=
  "# PRD Template\n\n*Template not found in embeddings. Using fallback.*"

def tasksFallback : String :=
  "# Tasks Template\n\n*Template not found in embeddings. Using fallback.*"

def subtasksFallback : String :=
  "# Subtasks Template\n\n*Template not found in embeddings. Using fallback.*"

/-- One template slot's `async` arm: embed the query text, then search
`application = ["global"]` with the slot category and `topK = 1`. -/
def runTemplateSlot (B : Backend) (q : String × List String × Nat × TemplateSlot) :
    Except CtxError String :=
  match B.embed q.1 with
  | Except.error e => Except.error (CtxError.embedding e)
  | Except.ok v =>
    match B.search v ["global"] (some q.2.1) q.2.2.1 with
    | Except.error e => Except.error (CtxError.backend e)
    | Except.ok rs => Except.ok (templateCombine rs)

/-- `TemplateSearcher.searchTemplates`: three slot lookups joined by
`Promise.all` (an error in any slot rejects the whole call), then the
`|| fallback` defaulting per slot. -/
def searchTemplates (B : Backend) : Except CtxError TemplateContext :=
  match runTemplateSlot B templateQueries[0] with
  | Except.error e => Except.error e
  | Except.ok prdContent =>
    match runTemplateSlot B templateQueries[1] with
    | Except.error e => Except.error e
    | Except.ok tasksContent =>
      match runTemplateSlot B templateQueries[2] with
      | Except.error e => Except.error e
      | Except.ok subtasksContent =>
        Except.ok
          { prdTemplate := jsOrElse prdContent prdFallback,
            tasksTemplate := jsOrElse tasksContent tasksFallback,
            subtasksTemplate := jsOrElse subtasksContent subtasksFallback }

/-! ## Prompt builder (`src/core/prompts/prompt-builder.ts`) -/

/-- `toUpperCase` (ASCII range). -/
def toUpperStr (s : String) : String :=
  String.mk (s.data.map Char.toUpper)

/-- `StructuredPrompt.context` from `prompt-builder.ts`. -/
structure PromptContextMeta where
  technology : String
  structure_ : String
  conventions : String
  examples : String
deriving DecidableEq, Repr

/-- `StructuredPrompt` from `prompt-builder.ts`. -/
structure StructuredPrompt where
  system : String
  user : String
  context : PromptContextMeta
deriving DecidableEq, Repr

def sysHeader (command : ParsedCommand) : String :=
  "You are an expert Full-Stack Engineer working on the " ++ toUpperStr command.scope ++
    " application in the CRAC (Centauro Rent a Car) monorepo.\n\n"

def rulesHeaderText : String :=
  "## CRAC Monorepo Rules and Conventions\n\n" ++
  "*The following rules and conventions are MANDATORY and must be followed for all development tasks:*\n\n"

/-- The optional mandatory-rules block.  The argument models the nested
`searchRules` collaboration: `none` when no context searcher is set,
`some (Except.error e)` when the nested call failed (swallowed with a
warning), `some (Except.ok c)` when it returned content `c`. -/
def rulesBlock (rules : Option (Except String String)) : String :=
  match rules with
  | some (Except.ok c) =>
    if jsTrimS c = "" then "" else rulesHeaderText ++ c ++ "\n\n" ++ "---\n\n"
  | _ => ""

def contextInfoBlock (command : ParsedCommand) : String :=
  "**Context Information:**\n" ++
  "- Application: " ++ command.scope ++ "\n" ++
  "- Task Type: " ++ command.tool ++ "\n" ++
  "- Monorepo: CRAC Frontend Monorepo (pnpm workspaces + Turborepo)\n\n"

def monorepoStructureText : String :=
  "## Monorepo Structure\n\n" ++
  "This is a monorepo managed by pnpm workspaces and Turborepo:\n" ++
  "- **apps/**: Standalone applications (web, rac, partners, mobile, notifications, suppliers, queues)\n" ++
  "- **packages/**: Shared packages (@crac/core, @crac/design-system, @crac/components, etc.)\n" ++
  "- **config/**: Shared configurations (ESLint, TypeScript, Prettier)\n\n"

/-- The hard-coded Technical Context fallback emitted when
`context.technology` is empty. -/
def fallbackTechnologyText : String :=
  "## Technical Context\n\n" ++
  "Core technologies used in the monorepo:\n" ++
  "- Language: TypeScript\n" ++
  "- UI Framework: React\n" ++
  "- State Management: Redux Toolkit (primarily)\n" ++
  "- Styling: Tailwind CSS\n" ++
  "- Build Tools: Vite (for most apps) or Next.js (for web app)\n" ++
  "- Testing: Jest + React Testing Library\n\n"

/-- The hard-coded Project Structure fallback emitted when
`context.folderStructure` is empty. -/
def fallbackStructureText : String :=
  "## Project Structure\n\n" ++
  "The application follows a **feature-driven architecture** (Screaming Architecture):\n\n" ++
  "```\n" ++
  "src/features/<feature>/\n" ++
  "├── pages/          # Top-level components (views/screens)\n" ++
  "├── components/     # Reusable UI components\n" ++
  "├── hooks/          # Custom React hooks\n" ++
  "├── state/          # Redux slices (reducers, actions, selectors)\n" ++
  "├── types/          # TypeScript types\n" ++
  "├── utils/          # Utility functions\n" ++
  "└── routes.ts       # Route definitions\n" ++
  "```\n\n"

/-- The hard-coded Code Conventions fallback emitted when
`context.conventions` is empty. -/
def fallbackConventionsText : String :=
  "## Code Conventions\n\n" ++
  "**Naming:**\n" ++
  "- PascalCase: Components, interfaces, types, enums\n" ++
  "- camelCase: Variables, functions, objects, folders, non-component files\n" ++
  "- Component files: PascalCase (e.g., BookingList.tsx)\n\n" ++
  "**Components:**\n" ++
  "- Use functional components with arrow functions\n" ++
  "- Use named exports (not default exports)\n" ++
  "- Define props using interfaces\n" ++
  "- Use fragments (<>) instead of div wrappers\n\n" ++
  "**Imports:**\n" ++
  "- Use path aliases: `~/*` for app code, `@crac/*` for shared packages\n" ++
  "- Import order: React → External libs → @crac/* → ~/* → Relative\n" ++
  "- Use `type` imports for TypeScript types\n\n" ++
  "**Shared Packages:**\n" ++
  "- `@crac/core`: Business logic, types, services (MUST use for shared logic)\n" ++
  "- `@crac/design-system`: UI components (PREFERRED for new components)\n" ++
  "- `@crac/components`: Legacy components (only for legacy code)\n\n"

def developmentPrinciplesText : String :=
  "## Development Principles\n\n" ++
  "You will receive a specific development task. Follow these principles:\n\n" ++
  "**Code Quality:**\n" ++
  "- Apply SOLID principles and Clean Code practices\n" ++
  "- Write production-ready, maintainable code\n" ++
  "- Include proper TypeScript types (no `any` unless absolutely necessary)\n" ++
  "- Use custom hooks to separate presentation logic from business logic\n\n" ++
  "**Structure & Organization:**\n" ++
  "- Follow the feature-driven architecture structure\n" ++
  "- Place shared business logic in `@crac/core` package\n" ++
  "- Use components from `@crac/design-system` by default\n" ++
  "- Follow the established folder structure and conventions\n\n" ++
  "**Testing:**\n" ++
  "- Write tests using Jest + React Testing Library\n" ++
  "- Co-locate test files with source files (`*.test.ts`, `*.test.tsx`)\n" ++
  "- Use `@crac/test-utils` for custom rendering\n" ++
  "- Use `@crac/fake-api` for mock data when applicable\n\n" ++
  "**Styling:**\n" ++
  "- Use Tailwind CSS utility classes (prefer over custom CSS)\n" ++
  "- Use design system tokens when available\n" ++
  "- Ensure responsive design (mobile-first approach)\n" ++
  "- Organize classes by type (layout, spacing, colors, etc.)\n\n" ++
  "**Git & Workflow:**\n" ++
  "- Branch naming: `<app>-<type>-<description>` (e.g., `rac-feature-booking-calendar`)\n" ++
  "- Commits: Follow Conventional Commits (`feat(scope): description`)\n" ++
  "- Base branch: `develop` (not `main`)\n\n"

/-- `PromptBuilder.buildSystemPrompt`.  `rules` models the optional
nested best-effort `searchRules` call (see `rulesBlock`). -/
def buildSystemPrompt (rules : Option (Except String String))
    (command : ParsedCommand) (context : RAGContext) : String :=
  sysHeader command ++
  rulesBlock rules ++
  contextInfoBlock command ++
  monorepoStructureText ++
  (if context.technology = "" then fallbackTechnologyText
   else "## Technical Context\n\n" ++ context.technology ++ "\n\n") ++
  (if context.folderStructure = "" then fallbackStructureText
   else "## Project Structure\n\n" ++ context.folderStructure ++ "\n\n") ++
  (if context.conventions = "" then fallbackConventionsText
   else "## Code Conventions\n\n" ++ context.conventions ++ "\n\n") ++
  developmentPrinciplesText

def taskHeader (command : ParsedCommand) : String :=
  "## Task\n\n" ++ command.tool ++ " " ++ command.requirements ++ "\n\n"

def examplesGuideText : String :=
  "The following examples show similar implementations in the CRAC monorepo. " ++
  "Use them as reference, paying attention to:\n" ++
  "- Structure and organization patterns\n" ++
  "- Use of shared packages (@crac/core, @crac/design-system)\n" ++
  "- Component patterns and conventions\n" ++
  "- Testing approaches\n\n"

/-- The Similar Examples block (emitted only when `context.examples`
has non-whitespace content). -/
def similarExamplesBlock (context : RAGContext) : String :=
  "## Similar Examples\n\n" ++ examplesGuideText ++ context.examples ++ "\n\n"

def implementationInstructionsText : String :=
  "## Implementation Instructions\n\n" ++
  "**IMPORTANT: Before implementing, you MUST call the `get_crac_rules` tool with the task context to get the specific CRAC conventions you need to follow.**\n\n" ++
  "Please implement this task following:\n\n" ++
  "1. **Get CRAC Rules FIRST**: Call `get_crac_rules` tool with the task description to get relevant conventions\n" ++
  "2. **Monorepo conventions**: Use the structure and patterns shown in the context above\n" ++
  "3. **Shared packages**: Leverage `@crac/core` for business logic and `@crac/design-system` for UI components\n" ++
  "4. **Code style**: Follow the naming conventions, import order, and component patterns documented\n" ++
  "5. **Testing**: Include appropriate tests using Jest + React Testing Library\n" ++
  "6. **TypeScript**: Use proper types, avoid `any`, use type imports when applicable\n" ++
  "7. **Responsive design**: Ensure mobile-first approach with Tailwind CSS\n\n" ++
  "Pay attention to the metadata (app, scope, distance) in the examples to understand context relevance. " ++
  "Lower distance values indicate more relevant examples.\n"

/-- `PromptBuilder.buildUserPrompt`.  The guard is the JS test
`context.examples && context.examples.trim().length > 0`. -/
def buildUserPrompt (command : ParsedCommand) (context : RAGContext) : String :=
  taskHeader command ++
  (if context.examples ≠ "" ∧ jsTrimS context.examples ≠ "" then similarExamplesBlock context
   else "") ++
  implementationInstructionsText

/-- `PromptBuilder.buildPrompt`. -/
def buildPrompt (rules : Option (Except String String))
    (command : ParsedCommand) (ragContext : RAGContext) : StructuredPrompt :=
  { system := buildSystemPrompt rules command ragContext,
    user := buildUserPrompt command ragContext,
    context :=
      { technology := ragContext.technology,
        structure_ := ragContext.folderStructure,
        conventions := ragContext.conventions,
        examples := ragContext.examples } }

/-! ## Theorems -/

/-- The header line the spec describes for one combined result:
`--- {title} ({application}/{category}, distance: {d}) ---`, where the
source stores the application tag in `app` and the category tag in
`scope`, and `d` is the distance to 4 decimal places. -/
def combineSpecHeader (r : SearchResult) : String :=
  "--- " ++ r.title ++ " (" ++ r.app ++ "/" ++ r.scope ++ ", distance: " ++
    toFixed4 r.distance ++ ") ---"

/-- The spec's block for one result: the header, a newline, then the
content body. -/
def combineSpecBlock (r : SearchResult) : String :=
  combineSpecHeader r ++ "\n" ++ r.content

theorem resultBlock_eq_specBlock (r : SearchResult) :
    resultBlock r = combineSpecBlock r := by
  unfold resultBlock combineSpecBlock combineSpecHeader
  have hlit : (") ---" ++ "\n" : String) = ") ---\n" := rfl
  simp only [String.append_assoc, ← hlit]

/-- C4: for every aspect, the combined string equals the blocks
`--- {title} ({application}/{category}, distance: {d}) ---` + newline +
content, in backend order, joined by a double newline; the empty result
list combines to the empty string. -/
theorem combineResults_eq_joined_blocks (results : List SearchResult) :
    combineResults results = joinSep "\n\n" (results.map combineSpecBlock) ∧
      combineResults [] = "" := by
  constructor
  · have hblock : resultBlock = combineSpecBlock := funext resultBlock_eq_specBlock
    cases results with
    | nil => rfl
    | cons r rs => simp [combineResults, hblock]
  · rfl

theorem parseCore_raw (n : String) : (parseCore n).raw = n := by
  unfold parseCore
  split <;> rfl

theorem jsTrimL_idem (l : List Char) : jsTrimL (jsTrimL l) = jsTrimL l := by
  unfold jsTrimL
  have h1 : List.dropWhile jsWs (List.rdropWhile jsWs (List.dropWhile jsWs l)) =
      List.rdropWhile jsWs (List.dropWhile jsWs l) := by
    rw [List.dropWhile_eq_self_iff]
    intro hl
    have hpre := List.rdropWhile_prefix jsWs (List.dropWhile jsWs l)
    have h0 : 0 < (List.dropWhile jsWs l).length :=
      lt_of_lt_of_le hl (List.IsPrefix.length_le hpre)
    have hhead := List.dropWhile_get_zero_not jsWs l h0
    simp only [List.get_eq_getElem] at hhead ⊢
    rwa [List.IsPrefix.getElem hpre hl]
  rw [h1, List.rdropWhile_idempotent]

theorem jsTrimS_idem (s : String) : jsTrimS (jsTrimS s) = jsTrimS s := by
  unfold jsTrimS
  rw [jsTrimL_idem]

/-- C9: parsing is idempotent — re-parsing the `raw` field of a parsed
command yields the identical `ParsedCommand`. -/
theorem parseCommand_idempotent (s : String) :
    parseCommand (parseCommand s).raw = parseCommand s := by
  unfold parseCommand
  rw [parseCore_raw, jsTrimS_idem]

/-- All action keywords appearing in `TOOL_PATTERNS`, in order. -/
def toolKeywordList : List String := toolAlternatives.flatten

/-- C10: a lone action keyword (nothing after it) is not recognized as
an action, because every tool pattern requires at least one whitespace
character after the keyword: the parser falls back to the default
action "dev" and keeps the keyword as the requirement. -/
theorem lone_action_keyword_not_recognized (kw : String) (h : kw ∈ toolKeywordList) :
    parseCommand kw =
      { tool := "dev", scope := "global", requirements := kw, raw := kw } := by
  fin_cases h <;> rfl

theorem lone_action_keyword_not_recognized_witness :
    ("test" : String) ∈ toolKeywordList ∧
      parseCommand "test" =
        { tool := "dev", scope := "global", requirements := "test", raw := "test" } :=
  ⟨by decide, lone_action_keyword_not_recognized "test" (by decide)⟩

/-- The leading `dropWhile` of a fully trimmed list is the identity:
a trimmed list has no leading whitespace. -/
theorem dropWhile_jsTrimL (l : List Char) :
    List.dropWhile jsWs (jsTrimL l) = jsTrimL l := by
  unfold jsTrimL
  rw [List.dropWhile_eq_self_iff]
  intro hl
  have hpre := List.rdropWhile_prefix jsWs (List.dropWhile jsWs l)
  have h0 : 0 < (List.dropWhile jsWs l).length :=
    lt_of_lt_of_le hl (List.IsPrefix.length_le hpre)
  have hhead := List.dropWhile_get_zero_not jsWs l h0
  simp only [List.get_eq_getElem] at hhead ⊢
  rwa [List.IsPrefix.getElem hpre hl]

/-- The head of a nonempty trimmed list is not whitespace. -/
theorem jsTrimL_head_not_ws (l : List Char) (c : Char) (rest : List Char)
    (h : jsTrimL l = c :: rest) : jsWs c = false := by
  have hd := dropWhile_jsTrimL l
  rw [h, List.dropWhile_cons] at hd
  by_cases hc : jsWs c = true
  · rw [if_pos hc] at hd
    have hlen := congrArg List.length hd
    have hle : (List.dropWhile jsWs rest).length ≤ rest.length :=
      List.IsSuffix.length_le (List.dropWhile_suffix jsWs)
    simp only [List.length_cons] at hlen
    omega
  · exact Bool.eq_false_iff.mpr hc

/-- Collapsing whitespace and re-trimming a nonempty trimmed list
cannot produce the empty list (its non-whitespace head survives). -/
theorem jsTrimL_collapse_ne_nil (l : List Char) (h : jsTrimL l ≠ []) :
    jsTrimL (collapseWs (jsTrimL l)) ≠ [] := by
  rcases hc : jsTrimL l with _ | ⟨c, rest⟩
  · exact absurd hc h
  · have hnw : jsWs c = false := jsTrimL_head_not_ws l c rest hc
    have hcoll : collapseWs (c :: rest) = c :: collapseWsAux false rest := by
      simp [collapseWs, collapseWsAux, hnw]
    rw [hcoll]
    unfold jsTrimL
    rw [List.dropWhile_cons, hnw]
    simp only [Bool.false_eq_true, if_false]
    rw [Ne, List.rdropWhile_eq_nil_iff]
    intro hall
    have := hall c (by simp)
    rw [hnw] at this
    exact Bool.false_ne_true this

/-- C8 (amended): for a command with no recognizable action prefix and
no scope token, `parseCommand` returns the default action "dev", the
default scope "global", and as requirement the trimmed input with every
whitespace run collapsed to a single space. -/
theorem parse_defaults_no_tokens (s : String)
    (hT : findToolMatch (lcList (jsTrimS s).data) = none)
    (hS : findScopeMatch (lcList (jsTrimS s).data) = none) :
    parseCommand s =
      { tool := "dev", scope := "global",
        requirements := String.mk (jsTrimL (collapseWs (jsTrimS s).data)),
        raw := jsTrimS s } := by
  unfold parseCommand
  by_cases h0 : jsTrimS s = ""
  · rw [h0] at hT hS ⊢
    rfl
  · unfold parseCore
    rw [if_neg h0]
    simp only [hT, hS]
    have hne : jsTrimL (collapseWs (jsTrimS s).data) ≠ [] := by
      have hdata : (jsTrimS s).data = jsTrimL s.data := rfl
      rw [hdata]
      apply jsTrimL_collapse_ne_nil
      intro hnil
      apply h0
      show String.mk (jsTrimL s.data) = ""
      rw [hnil]
    rw [if_neg hne]
    rfl

/-- C8 counterexample: the input "foo  bar" (double space) contains no
action and no scope token, yet the parsed requirement is "foo bar",
which differs from the trimmed input "foo  bar". -/
theorem parse_requirement_differs_from_trimmed_input :
    findToolMatch (lcList (jsTrimS "foo  bar").data) = none ∧
    findScopeMatch (lcList (jsTrimS "foo  bar").data) = none ∧
    (parseCommand "foo  bar").requirements ≠ jsTrimS "foo  bar" := by
  refine ⟨rfl, rfl, ?_⟩
  decide

theorem parse_defaults_no_tokens_witness :
    parseCommand "foo  bar" =
      { tool := "dev", scope := "global", requirements := "foo bar", raw := "foo  bar" } :=
  (parse_defaults_no_tokens "foo  bar" rfl rfl).trans (by decide)

/-- C2: for a scope with no active registry row, `searchContext` fails
with a scope-not-found error naming the scope and carrying exactly the
currently active scope keys, and issues no embedding or search calls. -/
theorem searchContext_invalid_scope (B : Backend) (requirements scope tool : String)
    (hinv : ∀ p ∈ B.devApps, p.1 = scope → p.2 = false) :
    searchContext B requirements scope tool =
      (Except.error (CtxError.scopeNotFound scope
          ((B.devApps.filter (fun p => p.2)).map (fun p => p.1))),
       { embeds := [], searches := [] }) := by
  have hv : validateScope B scope = false := by
    unfold validateScope
    have hnil : B.devApps.filter (fun r => r.1 == scope && r.2) = [] := by
      rw [List.filter_eq_nil_iff]
      intro p hp
      simp only [Bool.and_eq_true, beq_iff_eq, not_and]
      intro h1
      rw [hinv p hp h1]
      exact Bool.false_ne_true
    rw [hnil]
    rfl
  unfold searchContext
  rw [hv]
  rfl

def witnessBackendC2 : Backend :=
  { devApps := [("rac", true), ("web", false), ("partners", true)]
    embed := fun _ => Except.ok []
    search := fun _ _ _ _ => Except.ok [] }

theorem searchContext_invalid_scope_witness :
    searchContext witnessBackendC2 "req" "mobile" "dev" =
      (Except.error (CtxError.scopeNotFound "mobile" ["rac", "partners"]),
       { embeds := [], searches := [] }) := by
  have h := searchContext_invalid_scope witnessBackendC2 "req" "mobile" "dev"
    (by intro p hp; fin_cases hp <;> decide)
  rw [h]
  rfl

theorem runAspect_embedCall (B : Backend) (q : AspectQuery) :
    (runAspect B q).embedCall = q.query := by
  unfold runAspect
  rcases hB : B.embed q.query with e | v
  · rfl
  · rcases hS : B.search v q.apps (some q.scopes) q.topK with e | rs <;> simp [hS]

theorem runAspect_searchCall (B : Backend) (q : AspectQuery) (v : List Rat)
    (h : B.embed q.query = Except.ok v) :
    (runAspect B q).searchCall =
      some { embedding := v, apps := q.apps, scopes := some q.scopes, topK := q.topK } := by
  unfold runAspect
  rw [h]
  rcases hS : B.search v q.apps (some q.scopes) q.topK with e | rs <;> simp [hS]

/-- C1: with a valid scope, `searchContext` issues exactly the four
fixed aspect queries — technology, folder structure, conventions,
examples, with their fixed category pairs, applications
`[scope, "global"]` and limit 2 — so exactly 4 embedding calls and,
when all four embeddings succeed, exactly 4 similarity-search calls,
regardless of the requirement text. -/
theorem searchContext_four_calls (B : Backend) (requirements scope tool : String)
    (hval : validateScope B scope = true)
    (hemb : ∀ q ∈ buildQueries requirements scope tool, ∃ v, B.embed q.query = Except.ok v) :
    ∃ v1 v2 v3 v4 : List Rat,
      (searchContext B requirements scope tool).2 =
        { embeds := [scope ++ " technology stack framework libraries dependencies",
                     scope ++ " folder structure directory organization file layout",
                     scope ++ " code conventions style guide patterns best practices",
                     tool ++ " " ++ requirements ++ " example implementation similar"],
          searches :=
            [ { embedding := v1, apps := [scope, "global"],
                scopes := some ["architecture", "introduction"], topK := 2 },
              { embedding := v2, apps := [scope, "global"],
                scopes := some ["architecture", "routing"], topK := 2 },
              { embedding := v3, apps := [scope, "global"],
                scopes := some ["style-guide", "architecture"], topK := 2 },
              { embedding := v4, apps := [scope, "global"],
                scopes := some ["tasks-examples", "core"], topK := 2 } ] } ∧
      (searchContext B requirements scope tool).2.embeds.length = 4 ∧
      (searchContext B requirements scope tool).2.searches.length = 4 := by
  obtain ⟨v1, h1⟩ := hemb _ (show _ ∈ buildQueries requirements scope tool by
    unfold buildQueries; exact List.mem_cons_self _ _)
  obtain ⟨v2, h2⟩ := hemb _ (show _ ∈ buildQueries requirements scope tool by
    unfold buildQueries
    exact List.mem_cons_of_mem _ (List.mem_cons_self _ _))
  obtain ⟨v3, h3⟩ := hemb _ (show _ ∈ buildQueries requirements scope tool by
    unfold buildQueries
    exact List.mem_cons_of_mem _ (List.mem_cons_of_mem _ (List.mem_cons_self _ _)))
  obtain ⟨v4, h4⟩ := hemb _ (show _ ∈ buildQueries requirements scope tool by
    unfold buildQueries
    exact List.mem_cons_of_mem _ (List.mem_cons_of_mem _
      (List.mem_cons_of_mem _ (List.mem_cons_self _ _))))
  refine ⟨v1, v2, v3, v4, ?_⟩
  have htr :
      (searchContext B requirements scope tool).2 =
        { embeds := ((buildQueries requirements scope tool).map (runAspect B)).map
            (fun o => o.embedCall),
          searches := ((buildQueries requirements scope tool).map (runAspect B)).filterMap
            (fun o => o.searchCall) } := by
    simp only [searchContext, hval, if_true]
  rw [htr]
  refine ⟨?_, by simp [buildQueries, runAspect_embedCall], ?_⟩
  · unfold buildQueries
    simp only [List.map_cons, List.map_nil, List.filterMap_cons,
      runAspect_embedCall, runAspect_searchCall B _ _ h1, runAspect_searchCall B _ _ h2,
      runAspect_searchCall B _ _ h3, runAspect_searchCall B _ _ h4, List.filterMap_nil]
  · unfold buildQueries
    simp only [List.map_cons, List.map_nil, List.filterMap_cons,
      runAspect_searchCall B _ _ h1, runAspect_searchCall B _ _ h2,
      runAspect_searchCall B _ _ h3, runAspect_searchCall B _ _ h4, List.filterMap_nil,
      List.length_cons, List.length_nil]

def witnessBackendC1 : Backend :=
  { devApps := [("rac", true)]
    embed := fun _ => Except.ok [0]
    search := fun _ _ _ _ => Except.ok [] }

theorem searchContext_four_calls_witness :
    (searchContext witnessBackendC1 "req" "rac" "dev").2.embeds.length = 4 ∧
      (searchContext witnessBackendC1 "req" "rac" "dev").2.searches.length = 4 := by
  obtain ⟨v1, v2, v3, v4, _, hlen1, hlen2⟩ :=
    searchContext_four_calls witnessBackendC1 "req" "rac" "dev" (by decide)
      (fun q _ => ⟨[0], rfl⟩)
  exact ⟨hlen1, hlen2⟩

theorem runAspect_aspect (B : Backend) (q : AspectQuery) :
    (runAspect B q).aspect = q.aspect := by
  unfold runAspect
  rcases hB : B.embed q.query with e | v
  · rfl
  · rcases hS : B.search v q.apps (some q.scopes) q.topK with e | rs <;> simp [hS]

theorem runAspect_result_ok (B : Backend) (q : AspectQuery) (rs : List SearchResult)
    (h : (runAspect B q).result = Except.ok rs) :
    ∃ v, B.embed q.query = Except.ok v ∧
      B.search v q.apps (some q.scopes) q.topK = Except.ok rs := by
  unfold runAspect at h
  split at h
  · simp at h
  · rename_i v heqV
    split at h
    · simp at h
    · rename_i rs0 heqS
      simp at h
      exact ⟨v, heqV, by rw [heqS, h]⟩

theorem firstError_none_result (outcomes : List AspectOutcome)
    (h : firstError outcomes = none) (o : AspectOutcome) (ho : o ∈ outcomes) :
    ∃ rs, o.result = Except.ok rs := by
  unfold firstError at h
  have hall := List.findSome?_eq_none_iff.mp h o ho
  rcases hr : o.result with e | rs
  · rw [hr] at hall
    simp at hall
  · exact ⟨rs, rfl⟩

/-- C3: every successful `searchContext` result has all five fields
defined; each of the four searched fields equals the combined string of
exactly the rows the backend returned for that aspect's fixed query —
hence the empty string when that search returned no rows — and
`architecture` is the technology string, a double newline, then the
folder-structure string. -/
theorem searchContext_ok_shape (B : Backend) (requirements scope tool : String)
    (ctx : RAGContext) (tr : CallTrace)
    (h : searchContext B requirements scope tool = (Except.ok ctx, tr)) :
    (∃ (v1 v2 v3 v4 : List Rat) (rsT rsF rsC rsE : List SearchResult),
      B.embed (scope ++ " technology stack framework libraries dependencies") =
        Except.ok v1 ∧
      B.search v1 [scope, "global"] (some ["architecture", "introduction"]) 2 =
        Except.ok rsT ∧
      B.embed (scope ++ " folder structure directory organization file layout") =
        Except.ok v2 ∧
      B.search v2 [scope, "global"] (some ["architecture", "routing"]) 2 =
        Except.ok rsF ∧
      B.embed (scope ++ " code conventions style guide patterns best practices") =
        Except.ok v3 ∧
      B.search v3 [scope, "global"] (some ["style-guide", "architecture"]) 2 =
        Except.ok rsC ∧
      B.embed (tool ++ " " ++ requirements ++ " example implementation similar") =
        Except.ok v4 ∧
      B.search v4 [scope, "global"] (some ["tasks-examples", "core"]) 2 =
        Except.ok rsE ∧
      ctx.technology = combineResults rsT ∧
      ctx.folderStructure = combineResults rsF ∧
      ctx.conventions = combineResults rsC ∧
      ctx.examples = combineResults rsE ∧
      (rsT = [] → ctx.technology = "") ∧
      (rsF = [] → ctx.folderStructure = "") ∧
      (rsC = [] → ctx.conventions = "") ∧
      (rsE = [] → ctx.examples = "")) ∧
    ctx.architecture = ctx.technology ++ "\n\n" ++ ctx.folderStructure := by
  unfold searchContext at h
  by_cases hv : validateScope B scope
  · rw [if_pos hv] at h
    have hagg : aggregateOutcomes ((buildQueries requirements scope tool).map (runAspect B)) =
        Except.ok ctx := congrArg Prod.fst h
    unfold aggregateOutcomes at hagg
    rcases hfe : firstError ((buildQueries requirements scope tool).map (runAspect B))
      with _ | e
    · rw [hfe] at hagg
      simp only [Except.ok.injEq] at hagg
      obtain ⟨rs1, hr1⟩ := firstError_none_result _ hfe
        (runAspect B
          { query := scope ++ " technology stack framework libraries dependencies",
            apps := [scope, "global"], scopes := ["architecture", "introduction"],
            topK := 2, aspect := Aspect.technology })
        (List.mem_map_of_mem (runAspect B)
          (show _ ∈ buildQueries requirements scope tool from by
            unfold buildQueries
            exact List.mem_cons_self _ _))
      obtain ⟨v1, hE1, hS1⟩ := runAspect_result_ok _ _ _ hr1
      obtain ⟨rs2, hr2⟩ := firstError_none_result _ hfe
        (runAspect B
          { query := scope ++ " folder structure directory organization file layout",
            apps := [scope, "global"], scopes := ["architecture", "routing"],
            topK := 2, aspect := Aspect.folderStructure })
        (List.mem_map_of_mem (runAspect B)
          (show _ ∈ buildQueries requirements scope tool from by
            unfold buildQueries
            exact List.mem_cons_of_mem _ (List.mem_cons_self _ _)))
      obtain ⟨v2, hE2, hS2⟩ := runAspect_result_ok _ _ _ hr2
      obtain ⟨rs3, hr3⟩ := firstError_none_result _ hfe
        (runAspect B
          { query := scope ++ " code conventions style guide patterns best practices",
            apps := [scope, "global"], scopes := ["style-guide", "architecture"],
            topK := 2, aspect := Aspect.conventions })
        (List.mem_map_of_mem (runAspect B)
          (show _ ∈ buildQueries requirements scope tool from by
            unfold buildQueries
            exact List.mem_cons_of_mem _ (List.mem_cons_of_mem _ (List.mem_cons_self _ _))))
      obtain ⟨v3, hE3, hS3⟩ := runAspect_result_ok _ _ _ hr3
      obtain ⟨rs4, hr4⟩ := firstError_none_result _ hfe
        (runAspect B
          { query := tool ++ " " ++ requirements ++ " example implementation similar",
            apps := [scope, "global"], scopes := ["tasks-examples", "core"],
            topK := 2, aspect := Aspect.examples })
        (List.mem_map_of_mem (runAspect B)
          (show _ ∈ buildQueries requirements scope tool from by
            unfold buildQueries
            exact List.mem_cons_of_mem _ (List.mem_cons_of_mem _
              (List.mem_cons_of_mem _ (List.mem_cons_self _ _)))))
      obtain ⟨v4, hE4, hS4⟩ := runAspect_result_ok _ _ _ hr4
      have hR1 : resultsFor ((buildQueries requirements scope tool).map (runAspect B))
          Aspect.technology = rs1 := by
        unfold resultsFor
        rw [show (buildQueries requirements scope tool).map (runAspect B) =
          [runAspect B
             { query := scope ++ " technology stack framework libraries dependencies",
               apps := [scope, "global"], scopes := ["architecture", "introduction"],
               topK := 2, aspect := Aspect.technology },
           runAspect B
             { query := scope ++ " folder structure directory organization file layout",
               apps := [scope, "global"], scopes := ["architecture", "routing"],
               topK := 2, aspect := Aspect.folderStructure },
           runAspect B
             { query := scope ++ " code conventions style guide patterns best practices",
               apps := [scope, "global"], scopes := ["style-guide", "architecture"],
               topK := 2, aspect := Aspect.conventions },
           runAspect B
             { query := tool ++ " " ++ requirements ++ " example implementation similar",
               apps := [scope, "global"], scopes := ["tasks-examples", "core"],
               topK := 2, aspect := Aspect.examples }] from rfl]
        rw [List.find?_cons_of_pos _ (by simp [runAspect_aspect])]
        simp [hr1]
      have hR2 : resultsFor ((buildQueries requirements scope tool).map (runAspect B))
          Aspect.folderStructure = rs2 := by
        unfold resultsFor
        rw [show (buildQueries requirements scope tool).map (runAspect B) =
          [runAspect B
             { query := scope ++ " technology stack framework libraries dependencies",
               apps := [scope, "global"], scopes := ["architecture", "introduction"],
               topK := 2, aspect := Aspect.technology },
           runAspect B
             { query := scope ++ " folder structure directory organization file layout",
               apps := [scope, "global"], scopes := ["architecture", "routing"],
               topK := 2, aspect := Aspect.folderStructure },
           runAspect B
             { query := scope ++ " code conventions style guide patterns best practices",
               apps := [scope, "global"], scopes := ["style-guide", "architecture"],
               topK := 2, aspect := Aspect.conventions },
           runAspect B
             { query := tool ++ " " ++ requirements ++ " example implementation similar",
               apps := [scope, "global"], scopes := ["tasks-examples", "core"],
               topK := 2, aspect := Aspect.examples }] from rfl]
        rw [List.find?_cons_of_neg _ (by simp [runAspect_aspect])]
        rw [List.find?_cons_of_pos _ (by simp [runAspect_aspect])]
        simp [hr2]
      have hR3 : resultsFor ((buildQueries requirements scope tool).map (runAspect B))
          Aspect.conventions = rs3 := by
        unfold resultsFor
        rw [show (buildQueries requirements scope tool).map (runAspect B) =
          [runAspect B
             { query := scope ++ " technology stack framework libraries dependencies",
               apps := [scope, "global"], scopes := ["architecture", "introduction"],
               topK := 2, aspect := Aspect.technology },
           runAspect B
             { query := scope ++ " folder structure directory organization file layout",
               apps := [scope, "global"], scopes := ["architecture", "routing"],
               topK := 2, aspect := Aspect.folderStructure },
           runAspect B
             { query := scope ++ " code conventions style guide patterns best practices",
               apps := [scope, "global"], scopes := ["style-guide", "architecture"],
               topK := 2, aspect := Aspect.conventions },
           runAspect B
             { query := tool ++ " " ++ requirements ++ " example implementation similar",
               apps := [scope, "global"], scopes := ["tasks-examples", "core"],
               topK := 2, aspect := Aspect.examples }] from rfl]
        rw [List.find?_cons_of_neg _ (by simp [runAspect_aspect])]
        rw [List.find?_cons_of_neg _ (by simp [runAspect_aspect])]
        rw [List.find?_cons_of_pos _ (by simp [runAspect_aspect])]
        simp [hr3]
      have hR4 : resultsFor ((buildQueries requirements scope tool).map (runAspect B))
          Aspect.examples = rs4 := by
        unfold resultsFor
        rw [show (buildQueries requirements scope tool).map (runAspect B) =
          [runAspect B
             { query := scope ++ " technology stack framework libraries dependencies",
               apps := [scope, "global"], scopes := ["architecture", "introduction"],
               topK := 2, aspect := Aspect.technology },
           runAspect B
             { query := scope ++ " folder structure directory organization file layout",
               apps := [scope, "global"], scopes := ["architecture", "routing"],
               topK := 2, aspect := Aspect.folderStructure },
           runAspect B
             { query := scope ++ " code conventions style guide patterns best practices",
               apps := [scope, "global"], scopes := ["style-guide", "architecture"],
               topK := 2, aspect := Aspect.conventions },
           runAspect B
             { query := tool ++ " " ++ requirements ++ " example implementation similar",
               apps := [scope, "global"], scopes := ["tasks-examples", "core"],
               topK := 2, aspect := Aspect.examples }] from rfl]
        rw [List.find?_cons_of_neg _ (by simp [runAspect_aspect])]
        rw [List.find?_cons_of_neg _ (by simp [runAspect_aspect])]
        rw [List.find?_cons_of_neg _ (by simp [runAspect_aspect])]
        rw [List.find?_cons_of_pos _ (by simp [runAspect_aspect])]
        simp [hr4]
      subst hagg
      refine ⟨⟨v1, v2, v3, v4, rs1, rs2, rs3, rs4, hE1, hS1, hE2, hS2, hE3, hS3, hE4, hS4,
        ?_, ?_, ?_, ?_, ?_, ?_, ?_, ?_⟩, rfl⟩
      · rw [hR1]
      · rw [hR2]
      · rw [hR3]
      · rw [hR4]
      · intro hnil
        rw [hR1, hnil]
        rfl
      · intro hnil
        rw [hR2, hnil]
        rfl
      · intro hnil
        rw [hR3, hnil]
        rfl
      · intro hnil
        rw [hR4, hnil]
        rfl
    · rw [hfe] at hagg
      exact absurd hagg (by simp)
  · rw [if_neg hv] at h
    have := congrArg Prod.fst h
    exact absurd this (by simp)

def witnessBackendC3 : Backend :=
  { devApps := [("rac", true)]
    embed := fun _ => Except.ok [0]
    search := fun _ _ _ _ => Except.ok [] }

theorem searchContext_ok_shape_witness :
    (searchContext witnessBackendC3 "req" "rac" "dev").1 =
      Except.ok { technology := "", folderStructure := "", conventions := "",
                  examples := "", architecture := "\n\n" } ∧
    ({ technology := "", folderStructure := "", conventions := "",
       examples := "", architecture := "\n\n" } : RAGContext).architecture =
      "" ++ "\n\n" ++ "" := by
  have h := searchContext_ok_shape witnessBackendC3 "req" "rac" "dev"
    { technology := "", folderStructure := "", conventions := "",
      examples := "", architecture := "\n\n" }
    { embeds := ["rac technology stack framework libraries dependencies",
                 "rac folder structure directory organization file layout",
                 "rac code conventions style guide patterns best practices",
                 "dev req example implementation similar"],
      searches :=
        [ { embedding := [0], apps := ["rac", "global"],
            scopes := some ["architecture", "introduction"], topK := 2 },
          { embedding := [0], apps := ["rac", "global"],
            scopes := some ["architecture", "routing"], topK := 2 },
          { embedding := [0], apps := ["rac", "global"],
            scopes := some ["style-guide", "architecture"], topK := 2 },
          { embedding := [0], apps := ["rac", "global"],
            scopes := some ["tasks-examples", "core"], topK := 2 } ] }
    rfl
  exact ⟨rfl, h.2⟩

theorem templateBlock_ne_empty (r : SearchResult) : templateBlock r ≠ "" := by
  intro h
  have hl := congrArg String.length h
  simp only [templateBlock, String.length_append] at hl
  have h4 : ("--- " : String).length = 4 := rfl
  rw [h4] at hl
  simp at hl

theorem joinSep_nn_cons_ne_empty (x : String) (xs : List String) (h : x ≠ "") :
    joinSep "\n\n" (x :: xs) ≠ "" := by
  cases xs with
  | nil => simpa [joinSep] using h
  | cons b t =>
    intro hc
    have hl := congrArg String.length hc
    simp only [joinSep, String.length_append] at hl
    have h2 : ("\n\n" : String).length = 2 := rfl
    rw [h2] at hl
    simp at hl

theorem templateCombine_ne_empty (rs : List SearchResult) (h : rs ≠ []) :
    templateCombine rs ≠ "" := by
  rcases rs with _ | ⟨r, rest⟩
  · exact absurd rfl h
  · unfold templateCombine
    simp only [List.length_cons, List.map_cons]
    rw [if_pos (by omega)]
    exact joinSep_nn_cons_ne_empty _ _ (templateBlock_ne_empty r)

/-- C6 (amended): when each slot's embedding and similarity search
succeed, `searchTemplates` returns a bundle in which every slot is the
retrieved content of its limit-1, `application = ["global"]`,
slot-category search, except that a slot whose search returned zero
rows receives its literal "Template not found" fallback; a failing
embedding or search call, however, rejects the whole call. -/
theorem searchTemplates_slot_contents (B : Backend)
    (v1 v2 v3 : List Rat) (rs1 rs2 rs3 : List SearchResult)
    (hE1 : B.embed "create-prd product requirements document template guide" = Except.ok v1)
    (hS1 : B.search v1 ["global"] (some ["prd-template"]) 1 = Except.ok rs1)
    (hE2 : B.embed "generate-tasks task list template guide" = Except.ok v2)
    (hS2 : B.search v2 ["global"] (some ["tasks-template"]) 1 = Except.ok rs2)
    (hE3 : B.embed "implement-task subtask implementation template guide" = Except.ok v3)
    (hS3 : B.search v3 ["global"] (some ["subtasks-template"]) 1 = Except.ok rs3) :
    searchTemplates B = Except.ok
      { prdTemplate := jsOrElse (templateCombine rs1) prdFallback,
        tasksTemplate := jsOrElse (templateCombine rs2) tasksFallback,
        subtasksTemplate := jsOrElse (templateCombine rs3) subtasksFallback } ∧
    templateCombine ([] : List SearchResult) = "" ∧
    (rs1 = [] → jsOrElse (templateCombine rs1) prdFallback = prdFallback) ∧
    (rs2 = [] → jsOrElse (templateCombine rs2) tasksFallback = tasksFallback) ∧
    (rs3 = [] → jsOrElse (templateCombine rs3) subtasksFallback = subtasksFallback) ∧
    (rs1 ≠ [] → jsOrElse (templateCombine rs1) prdFallback = templateCombine rs1) ∧
    (rs2 ≠ [] → jsOrElse (templateCombine rs2) tasksFallback = templateCombine rs2) ∧
    (rs3 ≠ [] → jsOrElse (templateCombine rs3) subtasksFallback = templateCombine rs3) := by
  refine ⟨?_, rfl, ?_, ?_, ?_, ?_, ?_, ?_⟩
  · simp only [searchTemplates, runTemplateSlot, templateQueries,
      List.getElem_cons_zero, List.getElem_cons_succ, hE1, hE2, hE3, hS1, hS2, hS3]
  · intro h; rw [h]; rfl
  · intro h; rw [h]; rfl
  · intro h; rw [h]; rfl
  · intro h; exact if_neg (templateCombine_ne_empty rs1 h)
  · intro h; exact if_neg (templateCombine_ne_empty rs2 h)
  · intro h; exact if_neg (templateCombine_ne_empty rs3 h)

/-- C6 counterexample: a backend whose similarity search fails makes
`searchTemplates` fail as a whole — it does not return a
`TemplateBundle` for every behaviour of the search backend. -/
def failingBackendC6 : Backend :=
  { devApps := []
    embed := fun _ => Except.ok []
    search := fun _ _ _ _ => Except.error "connection failed" }

theorem searchTemplates_rejects_on_backend_error :
    searchTemplates failingBackendC6 =
      Except.error (CtxError.backend "connection failed") := rfl

def emptyBackendC6 : Backend :=
  { devApps := []
    embed := fun _ => Except.ok []
    search := fun _ _ _ _ => Except.ok [] }

theorem searchTemplates_slot_contents_witness :
    searchTemplates emptyBackendC6 =
      Except.ok { prdTemplate := prdFallback, tasksTemplate := tasksFallback,
                  subtasksTemplate := subtasksFallback } := by
  have h := searchTemplates_slot_contents emptyBackendC6 [] [] [] [] [] []
    rfl rfl rfl rfl rfl rfl
  exact h.1.trans rfl

/-- Boolean substring containment over character lists, used to state
what a rendered prompt does or does not contain. -/
def strContainsB (s pat : String) : Bool :=
  listInfix pat.data s.data

/-- C5 (amended): with all four retrieved fields empty, the assembled
system section contains the fixed fallback Technical Context, Project
Structure and Code Conventions blocks verbatim, and the user section is
exactly the task line followed by the implementation instructions — no
Similar Examples heading is emitted; and whenever `examples` has
non-whitespace content (the source condition is
`examples && examples.trim().length > 0`), the user section is the task
line, a Similar Examples heading followed by that exact examples
content, then the implementation instructions. -/
theorem buildPrompt_fallbacks_and_examples (rules : Option (Except String String))
    (command : ParsedCommand) (context : RAGContext) :
    (context.technology = "" → context.folderStructure = "" → context.conventions = "" →
      context.examples = "" →
      (∃ a b, (buildPrompt rules command context).system =
        a ++ fallbackTechnologyText ++ b) ∧
      (∃ a b, (buildPrompt rules command context).system =
        a ++ fallbackStructureText ++ b) ∧
      (∃ a b, (buildPrompt rules command context).system =
        a ++ fallbackConventionsText ++ b) ∧
      (buildPrompt rules command context).user =
        taskHeader command ++ implementationInstructionsText) ∧
    (jsTrimS context.examples ≠ "" →
      (buildPrompt rules command context).user =
        taskHeader command ++
          ("## Similar Examples\n\n" ++ examplesGuideText ++ context.examples ++ "\n\n") ++
          implementationInstructionsText) := by
  constructor
  · intro h1 h2 h3 h4
    refine ⟨⟨sysHeader command ++ rulesBlock rules ++ contextInfoBlock command ++
        monorepoStructureText,
        fallbackStructureText ++ fallbackConventionsText ++ developmentPrinciplesText, ?_⟩,
      ⟨sysHeader command ++ rulesBlock rules ++ contextInfoBlock command ++
        monorepoStructureText ++ fallbackTechnologyText,
        fallbackConventionsText ++ developmentPrinciplesText, ?_⟩,
      ⟨sysHeader command ++ rulesBlock rules ++ contextInfoBlock command ++
        monorepoStructureText ++ fallbackTechnologyText ++ fallbackStructureText,
        developmentPrinciplesText, ?_⟩, ?_⟩ <;>
      simp [buildPrompt, buildSystemPrompt, buildUserPrompt, h1, h2, h3, h4,
        String.append_assoc]
  · intro hx
    have hne : context.examples ≠ "" := by
      intro h
      rw [h] at hx
      exact hx rfl
    show buildUserPrompt command context = _
    unfold buildUserPrompt
    rw [if_pos ⟨hne, hx⟩]
    unfold similarExamplesBlock
    simp [String.append_assoc]

/-- C5 counterexample: a `RAGContext` whose `examples` field is the
non-empty, whitespace-only string " " produces a user section with no
Similar Examples heading, contradicting the claim for all non-empty
`examples`. -/
def ctxWsExamplesC5 : RAGContext :=
  { technology := "", folderStructure := "", conventions := "",
    examples := " ", architecture := "" }

def commandC5 : ParsedCommand :=
  { tool := "dev", scope := "global", requirements := "x", raw := "dev x" }

set_option maxRecDepth 100000 in
theorem buildPrompt_ws_examples_no_heading :
    ctxWsExamplesC5.examples ≠ "" ∧
    (buildPrompt none commandC5 ctxWsExamplesC5).user =
      taskHeader commandC5 ++ implementationInstructionsText ∧
    strContainsB (buildPrompt none commandC5 ctxWsExamplesC5).user "## Similar Examples"
      = false := by
  refine ⟨by decide, ?_, by decide⟩
  show buildUserPrompt commandC5 ctxWsExamplesC5 = _
  unfold buildUserPrompt
  rw [if_neg (by decide)]
  rw [String.append_assoc, String.empty_append]

def ctxExamplesC5 : RAGContext :=
  { technology := "", folderStructure := "", conventions := "",
    examples := "EXAMPLE-CONTENT", architecture := "" }

def ctxEmptyC5 : RAGContext :=
  { technology := "", folderStructure := "", conventions := "",
    examples := "", architecture := "" }

theorem buildPrompt_fallbacks_and_examples_witness :
    ((buildPrompt none commandC5 ctxEmptyC5).user =
      taskHeader commandC5 ++ implementationInstructionsText) ∧
    ((buildPrompt none commandC5 ctxExamplesC5).user =
      taskHeader commandC5 ++
        ("## Similar Examples\n\n" ++ examplesGuideText ++ "EXAMPLE-CONTENT" ++ "\n\n") ++
        implementationInstructionsText) :=
  ⟨((buildPrompt_fallbacks_and_examples none commandC5 ctxEmptyC5).1
      rfl rfl rfl rfl).2.2.2,
    (buildPrompt_fallbacks_and_examples none commandC5 ctxExamplesC5).2 (by decide)⟩

/-- Recursive count of keyword-list entries contained in `n` (each list
entry contributes at most 1; a keyword string occurring twice in the
list contributes once per entry). -/
def entryScore (n : String) : List String → Nat
  | [] => 0
  | k :: ks => (if strIncludes n k then 1 else 0) + entryScore n ks

/-- The claim's reading of the score: number of DISTINCT keywords of
the type contained in `n` (each keyword counted at most once even if it
occurs twice in the pattern list). -/
def distinctScore (n : String) (ks : List String) : Nat :=
  (ks.dedup.filter (fun k => strIncludes n k)).length

/-- `detectRules` as the claim describes it, with scores counting
distinct keywords; everything else follows the source. -/
def detectRulesDistinctSpec (context : Option String) : List CracRuleType :=
  match context with
  | none => [CracRuleType.all]
  | some ctx =>
    if (jsTrimS ctx).data.length = 0 then [CracRuleType.all]
    else
      let normalizedContext := toLowerStr ctx
      let scored := detectorPatterns.filterMap (fun p =>
        let score := distinctScore normalizedContext p.2
        if score > 0 then some (p.1, score) else none)
      if scored.isEmpty then [CracRuleType.all]
      else
        let sorted := sortByScoreDesc scored
        let topMatches := (selectTop 0 sorted).map Prod.fst
        if topMatches.isEmpty then [CracRuleType.all] else topMatches

/-- The amended claim's scoring: entry-counted scores via the
recursive `entryScore`, types with score 0 dropped. -/
def amendedScored (n : String) : List (CracRuleType × Nat) :=
  detectorPatterns.filterMap (fun p =>
    if entryScore n p.2 > 0 then some (p.1, entryScore n p.2) else none)

/-- The amended claim's functional description of `detectRules`:
entry-counted scores, stable descending sort, then the top-2 ranks plus
any later type with score at least 2. -/
def detectRulesAmendedSpec : Option String → List CracRuleType
  | none => [CracRuleType.all]
  | some ctx =>
    if jsTrimS ctx = "" then [CracRuleType.all]
    else
      match amendedScored (toLowerStr ctx) with
      | [] => [CracRuleType.all]
      | q :: qs =>
        ((sortByScoreDesc (q :: qs)).take 2 ++
          ((sortByScoreDesc (q :: qs)).drop 2).filter (fun p => p.2 ≥ 2)).map Prod.fst

theorem entryScore_eq_filter_length (n : String) (ks : List String) :
    entryScore n ks = (ks.filter (fun k => strIncludes n k)).length := by
  induction ks with
  | nil => rfl
  | cons k ks ih =>
    unfold entryScore
    rw [List.filter_cons]
    by_cases hk : strIncludes n k
    · rw [if_pos hk, if_pos hk, List.length_cons, ih]
      omega
    · rw [if_neg hk, if_neg hk, ih]
      omega

theorem selectTop_ge_two (l : List (CracRuleType × Nat)) (i : Nat) (hi : 2 ≤ i) :
    selectTop i l = l.filter (fun p => decide (p.2 ≥ 2)) := by
  induction l generalizing i with
  | nil => rfl
  | cons x xs ih =>
    unfold selectTop
    rw [List.filter_cons]
    have hlt : decide (i < 2) = false := decide_eq_false (by omega)
    rw [hlt, Bool.false_or, ih (i + 1) (by omega)]

theorem selectTop_zero (l : List (CracRuleType × Nat)) :
    selectTop 0 l = l.take 2 ++ (l.drop 2).filter (fun p => decide (p.2 ≥ 2)) := by
  rcases l with _ | ⟨x, l⟩
  · rfl
  · rcases l with _ | ⟨y, l⟩
    · rfl
    · show selectTop 0 (x :: y :: l) = _
      unfold selectTop
      rw [if_pos (by simp)]
      unfold selectTop
      rw [if_pos (by simp)]
      rw [selectTop_ge_two l 2 (le_refl 2)]
      rfl

theorem insertByScoreDesc_ne_nil (x : CracRuleType × Nat)
    (l : List (CracRuleType × Nat)) : insertByScoreDesc x l ≠ [] := by
  cases l with
  | nil => simp [insertByScoreDesc]
  | cons y ys =>
    unfold insertByScoreDesc
    by_cases h : x.2 < y.2
    · simp [h]
    · simp [h]

theorem sortByScoreDesc_cons_ne_nil (x : CracRuleType × Nat)
    (l : List (CracRuleType × Nat)) : sortByScoreDesc (x :: l) ≠ [] := by
  unfold sortByScoreDesc
  exact insertByScoreDesc_ne_nil x (sortByScoreDesc l)

theorem trim_len_zero_iff (s : String) : (jsTrimS s).data.length = 0 ↔ jsTrimS s = "" := by
  constructor
  · intro h
    have hd : (jsTrimS s).data = [] := List.length_eq_zero.mp h
    cases hs : jsTrimS s with
    | mk d =>
      rw [hs] at hd
      simp at hd
      rw [hd]
  · intro h
    rw [h]
    rfl

theorem amendedScored_eq_detectorScored (n : String) :
    amendedScored n = detectorScored n := by
  unfold amendedScored detectorScored
  have hfun : (fun p : CracRuleType × List String =>
      if entryScore n p.2 > 0 then some (p.1, entryScore n p.2) else none) =
      (fun p : CracRuleType × List String =>
        if (p.2.filter (fun k => strIncludes n k)).length > 0 then
          some (p.1, (p.2.filter (fun k => strIncludes n k)).length)
        else none) := by
    funext p
    rw [entryScore_eq_filter_length]
  rw [hfun]

/-- C7 (amended): `detectRules` returns `[ALL]` for a missing, empty or
whitespace-only context and when no keyword of any type matches;
otherwise it returns the matched types sorted by descending score —
where the score of a type counts the ENTRIES of its keyword list
contained in the lower-cased context, so the duplicated CODE_STYLE
entry "code style" counts twice — keeping the two top-ranked types plus
any later type with score at least 2. -/
theorem detectRules_eq_amendedSpec (context : Option String) :
    detectRules context = detectRulesAmendedSpec context := by
  rcases context with _ | ctx
  · rfl
  · show detectRules (some ctx) = detectRulesAmendedSpec (some ctx)
    simp only [detectRules, detectRulesAmendedSpec]
    rw [amendedScored_eq_detectorScored]
    by_cases h0 : (jsTrimS ctx).data.length = 0
    · rw [if_pos h0, if_pos ((trim_len_zero_iff ctx).mp h0)]
    · rw [if_neg h0, if_neg (fun he => h0 ((trim_len_zero_iff ctx).mpr he))]
      rcases hsc : detectorScored (toLowerStr ctx) with _ | ⟨q, qs⟩
      · rfl
      · simp only [List.isEmpty_cons, Bool.false_eq_true, if_false]
        rw [selectTop_zero]
        rw [if_neg ?_]
        rcases hsort : sortByScoreDesc (q :: qs) with _ | ⟨y, ys⟩
        · exact absurd hsort (sortByScoreDesc_cons_ne_nil q qs)
        · simp [hsort]

set_option maxRecDepth 100000 in
/-- C7 counterexample: on "test jest api endpoint code style" the
duplicated CODE_STYLE entry "code style" scores 2 in the source (one
per list entry) but only 1 distinct keyword matches, so the source
keeps CODE_STYLE at rank 3 while the claim's distinct-keyword reading
drops it. -/
theorem detectRules_ne_distinctSpec :
    detectRules (some "test jest api endpoint code style") =
      [CracRuleType.testing, CracRuleType.endpoints, CracRuleType.code_style] ∧
    detectRulesDistinctSpec (some "test jest api endpoint code style") =
      [CracRuleType.testing, CracRuleType.endpoints] ∧
    detectRules (some "test jest api endpoint code style") ≠
      detectRulesDistinctSpec (some "test jest api endpoint code style") := by
  refine ⟨by decide, by decide, by decide⟩

end CracMcp
